import Mathlib

/-!
Shallow embedding of the strava-cli authenticated request lifecycle:
the OAuth code/state extraction helpers, the two-step remote login
(internal/auth and cmd/auth.go), the token refresher, the retrying
transport (internal/client/transport.go), the credential store save
(internal/config), and the upload poller (cmd/uploads.go).

Go strings are Lean String, unix timestamps are Int, HTTP statuses are
Nat.  Network calls (token exchange, base round trips, upload fetches)
are passed in as oracles so call counts and outcomes are observable.
-/

namespace StravaCli

/-! ### Query-string model (net/url)

`extractCode` and `extractCodeAndState` call `url.Parse` and
`Query().Get(key)`.  We model the query component as Go derives it:
the fragment (everything from the first `#`) is cut off first, then
the raw query is everything after the first `?` of the remainder.
`ParseQuery` splits on `&`, skips empty segments and segments
containing `;`, cuts each segment at the first `=`, percent-decodes
key and value (`+` becomes space) and skips the pair when decoding
fails.  `Get` returns the first value bound to the key, or the empty
string.  `url.Parse` failure is modelled as the presence of an ASCII
control character in the input (Go rejects control characters; its
other parse failures concern escapes outside the query component and
are immaterial to the extraction behaviour settled here). -/

def hexDigitVal (c : Char) : Option Nat :=
  if '0' ≤ c ∧ c ≤ '9' then some (c.toNat - '0'.toNat)
  else if 'a' ≤ c ∧ c ≤ 'f' then some (c.toNat - 'a'.toNat + 10)
  else if 'A' ≤ c ∧ c ≤ 'F' then some (c.toNat - 'A'.toNat + 10)
  else none

def queryUnescapeList : List Char → Option (List Char)
  | [] => some []
  | '+' :: rest => (queryUnescapeList rest).map (' ' :: ·)
  | '%' :: a :: b :: rest =>
    match hexDigitVal a, hexDigitVal b with
    | some x, some y => (queryUnescapeList rest).map (Char.ofNat (16 * x + y) :: ·)
    | _, _ => none
  | '%' :: _ => none
  | c :: rest => (queryUnescapeList rest).map (c :: ·)

def containsChar (c : Char) (cs : List Char) : Bool :=
  cs.any (· = c)

/-- The part of the list after the first occurrence of sep, if any. -/
def afterFirst (sep : Char) : List Char → Option (List Char)
  | [] => none
  | c :: rest => if c = sep then some rest else afterFirst sep rest

/-- Split on a single-character separator (strings.Split). -/
def splitOnChar (sep : Char) : List Char → List (List Char)
  | [] => [[]]
  | c :: rest =>
    let r := splitOnChar sep rest
    if c = sep then [] :: r
    else
      match r with
      | [] => [[c]]
      | h :: t => (c :: h) :: t

/-- Cut a query segment at the first `=` (strings.Cut): key before,
value after; a segment without `=` has an empty value. -/
def cutAtEq (seg : List Char) : List Char × List Char :=
  match afterFirst '=' seg with
  | none => (seg, [])
  | some v => (seg.takeWhile (· ≠ '='), v)

def parseQueryPairsList (q : List Char) : List (String × String) :=
  (splitOnChar '&' q).filterMap (fun seg =>
    if seg = [] then none
    else if containsChar ';' seg then none
    else
      let kv := cutAtEq seg
      match queryUnescapeList kv.1, queryUnescapeList kv.2 with
      | some k, some v => some (String.mk k, String.mk v)
      | _, _ => none)

def queryGetList (q : List Char) (key : String) : String :=
  match (parseQueryPairsList q).find? (fun p => p.1 = key) with
  | some p => p.2
  | none => ""

/-- The raw query of a URL string as url.Parse derives it: strip the
fragment at the first `#`, then take everything after the first `?`. -/
def rawQueryList (cs : List Char) : List Char :=
  (afterFirst '?' (cs.takeWhile (· ≠ '#'))).getD []

def urlParseOkList (cs : List Char) : Bool :=
  cs.all (fun c => decide (32 ≤ c.toNat ∧ c.toNat ≠ 127))

/-- The character list of a string (kept abstract by name so that
statements and definitions agree syntactically). -/
def chars (s : String) : List Char :=
  s.toList

def queryGet (q key : String) : String :=
  queryGetList (chars q) key

def rawQueryOf (s : String) : String :=
  String.mk (rawQueryList (chars s))

def urlParseOk (s : String) : Bool :=
  urlParseOkList (chars s)

/-- Go strings.TrimSpace (leading and trailing whitespace; the ASCII
whitespace characters — further Unicode space code points never occur
in the inputs settled here and are abstracted away). -/
def isSpaceGo (c : Char) : Bool :=
  c = ' ' || c = '\t' || c = '\n' || c = '\r' || c.toNat = 11 || c.toNat = 12

def trimChars (cs : List Char) : List Char :=
  ((cs.dropWhile isSpaceGo).reverse.dropWhile isSpaceGo).reverse

/-- strings.ReplaceAll(input, single backslash, empty string). -/
def stripBackslashes (cs : List Char) : List Char :=
  cs.filter (fun c => c ≠ '\\')

/-- The pasted step-2 input after TrimSpace and backslash removal. -/
def processedInput (input : String) : List Char :=
  stripBackslashes (trimChars (chars input))

/-! ### Code/state extraction (internal/auth) -/

/-- internal/auth extractCode: if the input contains a `?` or `&`,
parse it as a URL and return the `code` query parameter when non-empty;
in every other case (no separator, parse failure, empty or absent code
parameter) return the whole input as the code. -/
def extractCode (input : String) : String :=
  if containsChar '?' (chars input) ∨ containsChar '&' (chars input) then
    if urlParseOkList (chars input) then
      if queryGetList (rawQueryList (chars input)) "code" ≠ "" then
        queryGetList (rawQueryList (chars input)) "code"
      else input
    else input
  else input

/-- internal/auth extractCodeAndState: trim whitespace, strip shell
backslash escapes, then if the input contains `?` or `&` and parses as
a URL return the `code` and `state` query parameters (each possibly
empty); otherwise the whole processed input is the bare code with an
empty state. -/
def extractCodeAndState (input : String) : String × String :=
  if containsChar '?' (processedInput input) ∨ containsChar '&' (processedInput input) then
    if urlParseOkList (processedInput input) then
      (queryGetList (rawQueryList (processedInput input)) "code",
       queryGetList (rawQueryList (processedInput input)) "state")
    else (String.mk (processedInput input), "")
  else (String.mk (processedInput input), "")

/-! ### Data model (internal/config) -/

structure Tokens where
  accessToken : String
  refreshToken : String
  expiresAt : Int
  tokenType : String
deriving DecidableEq

structure PendingAuth where
  state : String
  redirectURI : String
  expiresAt : Int
deriving DecidableEq

structure Config where
  clientID : String
  clientSecret : String
  redirectURI : String
  tokens : Tokens
  pendingAuth : Option PendingAuth
deriving DecidableEq

/-! ### Step 2 of the remote login (internal/auth CompleteRemoteLogin,
cmd/auth.go completeRemoteLogin)

The token exchange is an oracle
`exchange clientID clientSecret code redirectURI`; every model returns
the number of exchange calls performed so "never exchanges" is
observable.  Error constructors stand for the distinct error returns
of the source (their prose messages carry no further data). -/

inductive AuthErr where
  | noState
  | stateMismatch
  | noCode (input : String)
  | exchangeFailed (msg : String)
deriving DecidableEq

abbrev Exchange := String → String → String → String → Except String Tokens

/-- internal/auth CompleteRemoteLogin: extract code and state from the
pasted input; when expectedState is non-empty, fail on a missing or
mismatching state; fail on an empty code; otherwise perform the code
exchange.  Returns the result together with the number of exchange
calls made. -/
def CompleteRemoteLogin (exchange : Exchange)
    (clientID clientSecret redirectURI expectedState pastedInput : String) :
    Except AuthErr Tokens × Nat :=
  let cs := extractCodeAndState pastedInput
  let code := cs.1
  let gotState := cs.2
  if expectedState ≠ "" ∧ gotState = "" then (.error .noState, 0)
  else if expectedState ≠ "" ∧ gotState ≠ expectedState then (.error .stateMismatch, 0)
  else if code = "" then (.error (.noCode pastedInput), 0)
  else
    match exchange clientID clientSecret code redirectURI with
    | .ok t => (.ok t, 1)
    | .error e => (.error (.exchangeFailed e), 1)

inductive Step2Err where
  | noPendingLogin
  | expired
  | auth (e : AuthErr)
deriving DecidableEq

/-- cmd/auth.go completeRemoteLogin (step 2): fail when no
PendingAuth is stored; when the stored PendingAuth is past its expiry,
clear it (persisting the cleared config) and fail; otherwise run
CompleteRemoteLogin against the stored state.  On success the new
tokens are stored and the PendingAuth is cleared; on any
CompleteRemoteLogin error the function returns without modifying the
store.  The second component is the Credential Store state after the
call, the third the number of exchange calls. -/
def completeRemoteLoginCmd (exchange : Exchange) (now : Int)
    (cfg : Config) (authPasteURL : String) :
    Except Step2Err Unit × Config × Nat :=
  match cfg.pendingAuth with
  | none => (.error .noPendingLogin, cfg, 0)
  | some pending =>
    if pending.expiresAt < now then
      (.error .expired, { cfg with pendingAuth := none }, 0)
    else
      match CompleteRemoteLogin exchange cfg.clientID cfg.clientSecret
          pending.redirectURI pending.state authPasteURL with
      | (.error e, n) => (.error (.auth e), cfg, n)
      | (.ok tokens, n) => (.ok (), { cfg with tokens := tokens, pendingAuth := none }, n)

/-! ### Token refresher (internal/auth RefreshIfExpired) -/

inductive RefreshErr where
  | notAuthenticated
  | refreshFailed (msg : String)
deriving DecidableEq

/-- refreshTokens oracle: clientID, clientSecret, refreshToken. -/
abbrev RefreshExchange := String → String → String → Except String Tokens

/-- internal/auth RefreshIfExpired: error when no access token is
stored; no-op while `now + 30 < expiresAt`; otherwise exchange the
refresh token and store the new pair (the returned Config is the
Credential Store state after the call; on a failed exchange nothing is
stored).  The third component counts exchange calls. -/
def RefreshIfExpired (fe : RefreshExchange) (now : Int) (cfg : Config) :
    Except RefreshErr Unit × Config × Nat :=
  if cfg.tokens.accessToken = "" then (.error .notAuthenticated, cfg, 0)
  else if now + 30 < cfg.tokens.expiresAt then (.ok (), cfg, 0)
  else
    match fe cfg.clientID cfg.clientSecret cfg.tokens.refreshToken with
    | .error e => (.error (.refreshFailed e), cfg, 1)
    | .ok t => (.ok (), { cfg with tokens := t }, 1)

/-! ### Resilient transport (internal/client/transport.go)

The base round trip is an oracle `base : Nat → RTOutcome` giving the
outcome of the request issued on each attempt index.  The request body
is a one-shot stream: attempt 0 sends its contents, and because
`req.Clone` shares the stream, a retry without a GetBody function
sends the already-consumed (empty) stream; with a GetBody function the
body is regenerated fresh on each retry.  The result records the
Credential Store state, the number of requests issued, and the payload
sent on each attempt.  Backoff sleeping affects only timing and is not
modelled. -/

def maxRetries : Nat := 3

def isRetryable (status : Nat) : Bool :=
  status = 429 || 500 ≤ status

inductive RTOutcome where
  | resp (status : Nat)
  | netErr (msg : String)

inductive RTErr where
  | refresh (e : RefreshErr)
  | getBodyFailed (msg : String)
  | network (msg : String)
  | exhausted (status : Nat) (retries : Nat)
deriving DecidableEq

structure Request where
  body : Option String
  getBody : Option (Unit → Except String String)

deriving instance DecidableEq for Except

structure RTResult where
  result : Except RTErr Nat
  cfg : Config
  requests : Nat
  sent : List (Option String)
deriving DecidableEq

/-- The retry loop of retryTransport.RoundTrip, fuelled by the number
of attempts still allowed (`maxRetries + 1 - attempt`); the fuel-zero
case is the unreachable loop exit of the source. -/
def rtLoop (fe : RefreshExchange) (now : Int) (base : Nat → RTOutcome) (req : Request) :
    Nat → Nat → Config → List (Option String) → RTResult
  | 0, attempt, cfg, sent => ⟨.error (.exhausted 0 maxRetries), cfg, attempt, sent⟩
  | fuel + 1, attempt, cfg, sent =>
    match (if attempt = 0 then (.ok (), cfg, 0) else RefreshIfExpired fe now cfg) with
    | (.error e, cfg2, _) => ⟨.error (.refresh e), cfg2, attempt, sent⟩
    | (.ok _, cfg2, _) =>
      match (if attempt = 0 then Except.ok req.body
             else match req.getBody with
               | some f => (f ()).map some
               | none => Except.ok (req.body.map (fun _ => ""))) with
      | .error m => ⟨.error (.getBodyFailed m), cfg2, attempt, sent⟩
      | .ok payload =>
        let sent2 := sent ++ [payload]
        match base attempt with
        | .netErr m => ⟨.error (.network m), cfg2, attempt + 1, sent2⟩
        | .resp s =>
          if isRetryable s then
            if attempt = maxRetries then
              ⟨.error (.exhausted s maxRetries), cfg2, attempt + 1, sent2⟩
            else rtLoop fe now base req fuel (attempt + 1) cfg2 sent2
          else ⟨.ok s, cfg2, attempt + 1, sent2⟩

/-- retryTransport.RoundTrip: refresh the token before the first
attempt, then run up to maxRetries + 1 attempts, retrying only on 429
or 5xx responses and refreshing again before each retry. -/
def RoundTrip (fe : RefreshExchange) (now : Int) (base : Nat → RTOutcome)
    (req : Request) (cfg : Config) : RTResult :=
  match RefreshIfExpired fe now cfg with
  | (.error e, cfg2, _) => ⟨.error (.refresh e), cfg2, 0, []⟩
  | (.ok _, cfg2, _) => rtLoop fe now base req (maxRetries + 1) 0 cfg2 []

/-! ### Credential Store save (internal/config Save)

Save runs os.MkdirAll(dir, 0700) then os.WriteFile(path, data, 0600),
where data is the marshalled config (the JSON encoding is abstracted
as the data argument).  os.WriteFile opens with O_TRUNC (creating the
file with mode 0600 when absent; an existing file keeps its mode) and
then writes the bytes in place, so the observable on-disk states of a
save interrupted at an arbitrary point are: the original state, the
state after the directory is created, and — once the file is
truncated — every prefix of the new data. -/

structure Fs where
  dirExists : Bool
  file : Option (String × Nat)
deriving DecidableEq

/-- The mode the config file has after a save: 0600 (= 384) when
created fresh, the pre-existing mode otherwise (O_CREATE semantics). -/
def savedMode (fs : Fs) : Nat :=
  match fs.file with
  | none => 384
  | some (_, m) => m

/-- internal/config Save, final on-disk state. -/
def configSave (fs : Fs) (data : String) : Fs :=
  { dirExists := true, file := some (data, savedMode fs) }

/-- String.take (the prefix of the first k characters). -/
def takeStr (data : String) (k : Nat) : String :=
  String.mk (data.toList.take k)

/-- All on-disk states observable if the save is interrupted at any
point (including not at all: the final state is the last element). -/
def configSaveCrashStates (fs : Fs) (data : String) : List Fs :=
  fs :: { fs with dirExists := true } ::
    (List.range (data.toList.length + 1)).map
      (fun k => { dirExists := true, file := some (takeStr data k, savedMode fs) })

/-! ### HTML stripping (cmd/athlete.go stripHTML)

Replaces every match of the regexp `<[^>]+>` by nothing, then trims
whitespace.  A match starts at a `<` with at least one non-`>`
character before the next `>`. -/

def stripTags : List Char → List Char
  | [] => []
  | c :: rest =>
    if c = '<' then
      match h : rest.findIdx? (· = '>') with
      | some 0 => '<' :: stripTags rest
      | some (i + 1) => stripTags (rest.drop (i + 2))
      | none => '<' :: stripTags rest
    else c :: stripTags rest
termination_by cs => cs.length
decreasing_by
  · simp
  · have := List.length_drop (i + 2) rest
    simp only [List.length_cons]
    omega
  · simp
  · simp

def stripHTML (s : String) : String :=
  (String.mk (stripTags s.toList)).trim

/-! ### Upload poller (cmd/uploads.go pollUpload)

Each loop iteration waits for the 3-second tick, fetches the upload
status (oracle: a list of fetch outcomes consumed in order), returns a
terminal result on a fetch error, a non-nil upload error, or a non-nil
activity id, and only otherwise compares the current time against the
5-minute deadline.  Time is seconds since poll start; each returned
result carries the elapsed time at which the poller returned.  An
exhausted oracle (the job stays pending forever within the supplied
outcomes) yields none.  Context cancellation affects only the
interactive path and is not modelled. -/

structure UploadStatus where
  id : Int
  idStr : String
  externalId : Option String
  error : Option String
  status : String
  activityId : Option Int
deriving DecidableEq

inductive PollResult where
  | fetchFailed (e : String)
  | uploadFailed (msg : String)
  | success (activityId : Int)
  | timedOut
deriving DecidableEq

def pollIntervalSecs : Nat := 3
def pollDeadlineSecs : Nat := 300

def pollFrom : List (Except String UploadStatus) → Nat → Option (PollResult × Nat)
  | [], _ => none
  | f :: rest, now =>
    let now2 := now + pollIntervalSecs
    match f with
    | .error e => some (.fetchFailed e, now2)
    | .ok u =>
      match u.error with
      | some msg => some (.uploadFailed (stripHTML msg), now2)
      | none =>
        match u.activityId with
        | some aid => some (.success aid, now2)
        | none =>
          if pollDeadlineSecs < now2 then some (.timedOut, now2)
          else pollFrom rest now2

/-- pollUpload run from poll start. -/
def pollUpload (fetches : List (Except String UploadStatus)) : Option (PollResult × Nat) :=
  pollFrom fetches 0

/-! ### Concrete fixtures used by the theorems -/

def tokensEmpty : Tokens := ⟨"", "", 0, ""⟩
def tokensFresh : Tokens := ⟨"tok", "ref", 1000, "Bearer"⟩
def tokensNew : Tokens := ⟨"at2", "rt2", 5000, "Bearer"⟩
def cfgFresh : Config := ⟨"cid", "cs", "", tokensFresh, none⟩
def feNone : RefreshExchange := fun _ _ _ => .error "unused"
def feNew : RefreshExchange := fun _ _ _ => .ok tokensNew
def exchangeOk : Exchange := fun _ _ _ _ => .ok tokensNew
def pendingX : PendingAuth := ⟨"XSTATE", "http://localhost:8089/callback", 1000⟩
def cfgPending : Config := ⟨"cid", "cs", "", tokensEmpty, some pendingX⟩
def pastedWrong : String := "http://localhost:8089/callback?code=abc&state=WRONG"
def pastedRight : String := "http://localhost:8089/callback?code=abc&state=XSTATE"
def reqNone : Request := ⟨none, none⟩
def reqBodyNoGet : Request := ⟨some "abc", none⟩
def base429 : Nat → RTOutcome := fun k => .resp (if k < 2 then 429 else 200)
def base500 : Nat → RTOutcome := fun _ => .resp 500
def base52 : Nat → RTOutcome := fun k => .resp (if k = 0 then 500 else 200)
def pendingU : UploadStatus := ⟨7, "", none, none, "processing", none⟩
def done555 : UploadStatus := ⟨7, "", none, none, "done", some 555⟩
def pollFetches : List (Except String UploadStatus) :=
  [.ok pendingU, .ok pendingU, .ok done555]
def fsOld : Fs := ⟨true, some ("OLD", 384)⟩

/-! ### Claim theorems -/

/-- C1 counterexample: with a stored, unexpired PendingAuthorization
of state XSTATE, a step-2 call with a pasted URL carrying state WRONG
fails with a state mismatch but leaves the PendingAuthorization in the
Credential Store, and a second, identical step-2 call with the same
pasted URL fails with the same state mismatch again, not with the
no-pending-login error — refuting that the PendingAuthorization is
deleted on every outcome. -/
theorem C1_counterexample :
    (completeRemoteLoginCmd exchangeOk 0 cfgPending pastedWrong).1 =
      .error (.auth .stateMismatch) ∧
    (completeRemoteLoginCmd exchangeOk 0 cfgPending pastedWrong).2.1.pendingAuth =
      some pendingX ∧
    (completeRemoteLoginCmd exchangeOk 0
        (completeRemoteLoginCmd exchangeOk 0 cfgPending pastedWrong).2.1 pastedWrong).1 ≠
      .error .noPendingLogin ∧
    (completeRemoteLoginCmd exchangeOk 0
        (completeRemoteLoginCmd exchangeOk 0 cfgPending pastedWrong).2.1 pastedWrong).1 =
      .error (.auth .stateMismatch) := by
  decide

/-- C2 counterexample: a request with body `abc` and no
body-regeneration function, whose first attempt gets a 500, is
silently retried and succeeds — and the retry attempt carries the
empty consumed body, so the attempts do not all carry the first
attempt's logical payload. -/
theorem C2_counterexample :
    (RoundTrip feNone 0 base52 reqBodyNoGet cfgFresh).sent = [some "abc", some ""] ∧
    (RoundTrip feNone 0 base52 reqBodyNoGet cfgFresh).result = .ok 200 ∧
    ¬(∀ p ∈ (RoundTrip feNone 0 base52 reqBodyNoGet cfgFresh).sent, p = some "abc") := by
  decide

/-- C5 counterexample: saving data NEW over a store containing OLD and
crashing mid-write can leave the file containing N, which is neither
the complete previous state nor the complete new state — the save is
not atomic. -/
theorem C5_counterexample :
    (Fs.mk true (some ("N", 384))) ∈ configSaveCrashStates fsOld "NEW" ∧
    (Fs.mk true (some ("N", 384))).file ≠ fsOld.file ∧
    (Fs.mk true (some ("N", 384))).file ≠ (configSave fsOld "NEW").file := by
  decide

/-- C7 counterexample: the pasted input
https://example.com/callback?error=access_denied contains a question
mark and its code query parameter is empty, yet extractCode returns
the entire (non-empty) input instead of the empty code parameter, and
no fatal empty-extraction error arises — refuting that for every input
containing a separator the extraction result is the code query
parameter. -/
theorem C7_counterexample :
    containsChar '?' (chars "https://example.com/callback?error=access_denied") = true ∧
    queryGetList (rawQueryList (chars "https://example.com/callback?error=access_denied"))
      "code" = "" ∧
    extractCode "https://example.com/callback?error=access_denied" =
      "https://example.com/callback?error=access_denied" ∧
    "https://example.com/callback?error=access_denied" ≠ "" := by
  decide

/-- C8 counterexample: with fetches pending, pending, activity 555 the
poller returns success 555 at 9 seconds elapsed, not at approximately
6 seconds — the first fetch happens only after the first 3-second
tick. -/
theorem C8_counterexample :
    pollUpload pollFetches ≠ some (.success 555, 6) ∧
    pollUpload pollFetches = some (.success 555, 9) := by
  decide

def cfgNoTok : Config := ⟨"cid", "cs", "", tokensEmpty, none⟩

/-- C4: for every stored token pair, if the access token is empty the
refresher fails immediately with the not-authenticated error and no
exchange call; if now + 30s is still before expiry it is a no-op with
zero exchange calls and an unchanged store; otherwise it performs
exactly one refresh exchange and, when the exchange succeeds, stores
the new token pair. -/
theorem C4_theorem (fe : RefreshExchange) (now : Int) (cfg : Config) :
    (cfg.tokens.accessToken = "" →
      RefreshIfExpired fe now cfg = (.error .notAuthenticated, cfg, 0)) ∧
    (cfg.tokens.accessToken ≠ "" → now + 30 < cfg.tokens.expiresAt →
      RefreshIfExpired fe now cfg = (.ok (), cfg, 0)) ∧
    (cfg.tokens.accessToken ≠ "" → cfg.tokens.expiresAt ≤ now + 30 →
      (RefreshIfExpired fe now cfg).2.2 = 1 ∧
      ∀ t, fe cfg.clientID cfg.clientSecret cfg.tokens.refreshToken = .ok t →
        RefreshIfExpired fe now cfg = (.ok (), { cfg with tokens := t }, 1)) := by
  refine ⟨fun h => ?_, fun h1 h2 => ?_, fun h1 h2 => ?_⟩
  · simp [RefreshIfExpired, h]
  · simp [RefreshIfExpired, h1, h2]
  · have h2' : ¬(now + 30 < cfg.tokens.expiresAt) := by omega
    constructor
    · simp only [RefreshIfExpired, if_neg h1, if_neg h2']
      cases hfe : fe cfg.clientID cfg.clientSecret cfg.tokens.refreshToken <;> simp [hfe]
    · intro t ht
      simp [RefreshIfExpired, h1, h2', ht]

/-- C4 witness: concrete runs of each branch: no token, fresh token,
expired token with a successful exchange. -/
theorem C4_theorem_witness :
    RefreshIfExpired feNone 0 cfgNoTok = (.error .notAuthenticated, cfgNoTok, 0) ∧
    RefreshIfExpired feNone 0 cfgFresh = (.ok (), cfgFresh, 0) ∧
    RefreshIfExpired feNew 980 cfgFresh = (.ok (), { cfgFresh with tokens := tokensNew }, 1) :=
  ⟨(C4_theorem feNone 0 cfgNoTok).1 rfl,
   (C4_theorem feNone 0 cfgFresh).2.1 (by decide) (by decide),
   ((C4_theorem feNew 980 cfgFresh).2.2 (by decide) (by decide)).2 tokensNew rfl⟩

/-- C6: whenever the persisted state X is non-empty and the state
extracted from the pasted input differs from X (including the empty
state), step 2 fails with a state error and performs no token-exchange
call: the state check comes strictly before the exchange. -/
theorem C6_theorem (exchange : Exchange) (cid cs ruri X input : String)
    (hX : X ≠ "") (hY : (extractCodeAndState input).2 ≠ X) :
    (CompleteRemoteLogin exchange cid cs ruri X input).2 = 0 ∧
    ((CompleteRemoteLogin exchange cid cs ruri X input).1 = .error .noState ∨
     (CompleteRemoteLogin exchange cid cs ruri X input).1 = .error .stateMismatch) := by
  unfold CompleteRemoteLogin
  by_cases hg : (extractCodeAndState input).2 = ""
  · simp [hX, hg]
  · simp [hX, hg, hY]

/-- C6 witness: stored state XSTATE, pasted state WRONG: no exchange
call and a state error. -/
theorem C6_theorem_witness :
    (CompleteRemoteLogin exchangeOk "cid" "cs" "r" "XSTATE" pastedWrong).2 = 0 ∧
    ((CompleteRemoteLogin exchangeOk "cid" "cs" "r" "XSTATE" pastedWrong).1 = .error .noState ∨
     (CompleteRemoteLogin exchangeOk "cid" "cs" "r" "XSTATE" pastedWrong).1 =
       .error .stateMismatch) :=
  C6_theorem exchangeOk "cid" "cs" "r" "XSTATE" pastedWrong (by decide) (by decide)

/-- C9: with an empty expectedState, CompleteRemoteLogin never raises
the missing-state or state-mismatch error, and whenever the extracted
code is non-empty the result is exactly the outcome of the token
exchange on that code (one exchange call). -/
theorem C9_theorem (exchange : Exchange) (cid cs ruri input : String) :
    (∀ e, (CompleteRemoteLogin exchange cid cs ruri "" input).1 = .error e →
      e ≠ .noState ∧ e ≠ .stateMismatch) ∧
    ((extractCodeAndState input).1 ≠ "" →
      CompleteRemoteLogin exchange cid cs ruri "" input =
        (match exchange cid cs (extractCodeAndState input).1 ruri with
         | .ok t => (.ok t, 1)
         | .error m => (.error (.exchangeFailed m), 1))) := by
  have hmain : CompleteRemoteLogin exchange cid cs ruri "" input =
      (if (extractCodeAndState input).1 = "" then (.error (.noCode input), 0)
       else match exchange cid cs (extractCodeAndState input).1 ruri with
         | .ok t => (.ok t, 1)
         | .error m => (.error (.exchangeFailed m), 1)) := by
    unfold CompleteRemoteLogin
    simp
  constructor
  · intro e he
    rw [hmain] at he
    by_cases hc : (extractCodeAndState input).1 = ""
    · rw [if_pos hc] at he
      simp only [Except.error.injEq] at he
      subst he
      exact ⟨by simp, by simp⟩
    · rw [if_neg hc] at he
      cases hex : exchange cid cs (extractCodeAndState input).1 ruri with
      | ok t => rw [hex] at he; simp at he
      | error m =>
        rw [hex] at he
        simp only [Except.error.injEq] at he
        subst he
        exact ⟨by simp, by simp⟩
  · intro hc
    rw [hmain, if_neg hc]

/-- C9 witness: empty expectedState and pasted bare code abc go
straight to the exchange. -/
theorem C9_theorem_witness :
    CompleteRemoteLogin exchangeOk "cid" "cs" "r" "" "abc" = (.ok tokensNew, 1) :=
  ((C9_theorem exchangeOk "cid" "cs" "r" "abc").2 (by decide)).trans (by decide)

def isPendingFetch : Except String UploadStatus → Bool
  | .ok u => u.error.isNone && u.activityId.isNone
  | .error _ => false

/-- C10: a fetch observing a terminal state (non-nil upload error,
non-nil activity id, or a fetch failure) is reported as that terminal
result on any tick, with no deadline condition; the timeout result can
only arise from a run containing a pending observation. -/
theorem C10_theorem :
    (∀ now (u : UploadStatus) rest a, u.error = none → u.activityId = some a →
      pollFrom (.ok u :: rest) now = some (.success a, now + pollIntervalSecs)) ∧
    (∀ now (u : UploadStatus) rest msg, u.error = some msg →
      pollFrom (.ok u :: rest) now = some (.uploadFailed (stripHTML msg), now + pollIntervalSecs)) ∧
    (∀ now (e : String) rest,
      pollFrom (.error e :: rest) now = some (.fetchFailed e, now + pollIntervalSecs)) ∧
    (∀ fetches, (∀ f ∈ fetches, isPendingFetch f = false) →
      ∀ now t, pollFrom fetches now ≠ some (.timedOut, t)) := by
  refine ⟨?_, ?_, ?_, ?_⟩
  · intro now u rest a h1 h2
    simp [pollFrom, h1, h2]
  · intro now u rest msg h
    simp [pollFrom, h]
  · intro now e rest
    simp [pollFrom]
  · intro fetches
    induction fetches with
    | nil => intro _ now t; simp [pollFrom]
    | cons f rest ih =>
      intro h now t
      have hf := h f (List.mem_cons_self f rest)
      match f with
      | .error e => simp [pollFrom]
      | .ok u =>
        cases herr : u.error with
        | some m => simp [pollFrom, herr]
        | none =>
          cases hact : u.activityId with
          | some a => simp [pollFrom, herr, hact]
          | none =>
            exfalso
            simp [isPendingFetch, herr, hact] at hf

/-- C10 witness: an activity id observed on the tick at 303 seconds,
past the 300-second deadline, is still reported as success; a
terminal-only run never times out. -/
theorem C10_theorem_witness :
    pollFrom [.ok done555] 300 = some (.success 555, 303) ∧
    pollFrom [.error "boom"] 300 ≠ some (.timedOut, 303) :=
  ⟨C10_theorem.1 300 done555 [] 555 rfl rfl,
   C10_theorem.2.2.2 [.error "boom"] (by decide) 300 303⟩

/-- C1 amended: step 2 deletes the PendingAuthorization from the
Credential Store on success and on detected expiry, but on a
validation failure (state mismatch, missing state, missing code or
failed exchange) it returns with the store unchanged, so an identical
second step-2 call re-validates the same state instead of failing with
the no-pending-login error; only when no PendingAuthorization is
stored does the call fail with that error. -/
theorem C1_theorem (exchange : Exchange) (now : Int) (cfg : Config) (input : String) :
    (cfg.pendingAuth = none →
      completeRemoteLoginCmd exchange now cfg input = (.error .noPendingLogin, cfg, 0)) ∧
    (∀ p, cfg.pendingAuth = some p → p.expiresAt < now →
      completeRemoteLoginCmd exchange now cfg input =
        (.error .expired, { cfg with pendingAuth := none }, 0)) ∧
    (∀ p e n, cfg.pendingAuth = some p → ¬p.expiresAt < now →
      CompleteRemoteLogin exchange cfg.clientID cfg.clientSecret p.redirectURI p.state input =
        (.error e, n) →
      completeRemoteLoginCmd exchange now cfg input = (.error (.auth e), cfg, n)) ∧
    (∀ p t n, cfg.pendingAuth = some p → ¬p.expiresAt < now →
      CompleteRemoteLogin exchange cfg.clientID cfg.clientSecret p.redirectURI p.state input =
        (.ok t, n) →
      completeRemoteLoginCmd exchange now cfg input =
        (.ok (), { cfg with tokens := t, pendingAuth := none }, n)) := by
  refine ⟨fun h => ?_, fun p hp hexp => ?_, fun p e n hp hexp hcrl => ?_,
    fun p t n hp hexp hcrl => ?_⟩
  · simp [completeRemoteLoginCmd, h]
  · simp [completeRemoteLoginCmd, hp, hexp]
  · simp [completeRemoteLoginCmd, hp, hexp, hcrl]
  · simp [completeRemoteLoginCmd, hp, hexp, hcrl]

/-- C1 witness: each branch at concrete inputs: state mismatch keeps
the PendingAuthorization, success and expiry clear it, and a missing
PendingAuthorization yields the no-pending-login error. -/
theorem C1_theorem_witness :
    completeRemoteLoginCmd exchangeOk 0 cfgPending pastedWrong =
      (.error (.auth .stateMismatch), cfgPending, 0) ∧
    completeRemoteLoginCmd exchangeOk 0 cfgPending pastedRight =
      (.ok (), { cfgPending with tokens := tokensNew, pendingAuth := none }, 1) ∧
    completeRemoteLoginCmd exchangeOk 2000 cfgPending pastedRight =
      (.error .expired, { cfgPending with pendingAuth := none }, 0) ∧
    completeRemoteLoginCmd exchangeOk 0 cfgFresh pastedRight =
      (.error .noPendingLogin, cfgFresh, 0) :=
  ⟨(C1_theorem exchangeOk 0 cfgPending pastedWrong).2.2.1 pendingX .stateMismatch 0
      rfl (by decide) (by decide),
   (C1_theorem exchangeOk 0 cfgPending pastedRight).2.2.2 pendingX tokensNew 1
      rfl (by decide) (by decide),
   (C1_theorem exchangeOk 2000 cfgPending pastedRight).2.1 pendingX rfl (by decide),
   (C1_theorem exchangeOk 0 cfgFresh pastedRight).1 rfl⟩

/-- C5 amended: a save always ends with the parent directory present
and the file holding exactly the new data, with mode 0600 when the
file is created fresh; but the write is not atomic: a save interrupted
mid-write can leave any prefix of the new data on disk, so the only
guarantee is that every observable intermediate state is the original
state, the original state with the directory created, or a prefix of
the new data. -/
theorem C5_theorem (fs : Fs) (data : String) :
    (configSave fs data).dirExists = true ∧
    (configSave fs data).file = some (data, savedMode fs) ∧
    (fs.file = none → savedMode fs = 384) ∧
    (∀ s ∈ configSaveCrashStates fs data,
      s = fs ∨ s = { fs with dirExists := true } ∨
      ∃ k, k ≤ data.toList.length ∧ s = ⟨true, some (takeStr data k, savedMode fs)⟩) := by
  refine ⟨rfl, rfl, fun h => by simp [savedMode, h], ?_⟩
  intro s hs
  simp only [configSaveCrashStates, List.mem_cons, List.mem_map, List.mem_range] at hs
  rcases hs with h | h | ⟨k, hk, hkeq⟩
  · exact Or.inl h
  · exact Or.inr (Or.inl h)
  · exact Or.inr (Or.inr ⟨k, by omega, hkeq.symm⟩)

/-- C5 witness: concrete save of NEW over OLD: final state, fresh-file
mode, and classification of the intermediate state holding NE. -/
theorem C5_theorem_witness :
    (configSave fsOld "NEW").file = some ("NEW", savedMode fsOld) ∧
    savedMode (Fs.mk false none) = 384 ∧
    ((Fs.mk true (some ("NE", 384))) = fsOld ∨
     (Fs.mk true (some ("NE", 384))) = { fsOld with dirExists := true } ∨
     ∃ k, k ≤ "NEW".toList.length ∧
       (Fs.mk true (some ("NE", 384))) = ⟨true, some (takeStr "NEW" k, savedMode fsOld)⟩) :=
  ⟨(C5_theorem fsOld "NEW").2.1,
   (C5_theorem (Fs.mk false none) "x").2.2.1 rfl,
   (C5_theorem fsOld "NEW").2.2.2 (Fs.mk true (some ("NE", 384))) (by decide)⟩

/-- C7 amended: when the pasted input contains a separator, parses as
a URL and has a non-empty code query parameter, extractCode returns
that parameter; when the code parameter is empty it falls back to
returning the whole input (no fatal empty-extraction error); without a
separator the whole input is the code.  extractCodeAndState trims,
strips backslashes, and on the URL path returns the code and state
parameters directly (each possibly empty), otherwise the processed
input with an empty state.  The two positive examples of the claim
hold. -/
theorem C7_theorem :
    (∀ input : String,
      (containsChar '?' (chars input) = true ∨ containsChar '&' (chars input) = true) →
      urlParseOkList (chars input) = true →
      queryGetList (rawQueryList (chars input)) "code" ≠ "" →
      extractCode input = queryGetList (rawQueryList (chars input)) "code") ∧
    (∀ input : String,
      (containsChar '?' (chars input) = true ∨ containsChar '&' (chars input) = true) →
      urlParseOkList (chars input) = true →
      queryGetList (rawQueryList (chars input)) "code" = "" →
      extractCode input = input) ∧
    (∀ input : String,
      containsChar '?' (chars input) = false → containsChar '&' (chars input) = false →
      extractCode input = input) ∧
    (∀ input : String,
      (containsChar '?' (processedInput input) = true ∨
       containsChar '&' (processedInput input) = true) →
      urlParseOkList (processedInput input) = true →
      extractCodeAndState input =
        (queryGetList (rawQueryList (processedInput input)) "code",
         queryGetList (rawQueryList (processedInput input)) "state")) ∧
    (∀ input : String,
      containsChar '?' (processedInput input) = false →
      containsChar '&' (processedInput input) = false →
      extractCodeAndState input = (String.mk (processedInput input), "")) ∧
    (extractCodeAndState "http://host/cb?code=abc&state=xyz" = ("abc", "xyz") ∧
     extractCode "http://host/cb?code=abc&state=xyz" = "abc" ∧
     extractCodeAndState "abc" = ("abc", "") ∧
     extractCode "abc" = "abc") := by
  refine ⟨?_, ?_, ?_, ?_, ?_, by decide⟩
  · intro input hsep hok hc
    simp [extractCode, hsep, hok, hc]
  · intro input hsep hok hc
    simp [extractCode, hsep, hok, hc]
  · intro input h1 h2
    simp [extractCode, h1, h2]
  · intro input hsep hok
    simp [extractCodeAndState, hsep, hok]
  · intro input h1 h2
    simp [extractCodeAndState, h1, h2]

/-- C7 witness: the URL branch with a non-empty code parameter and the
bare-code branch at concrete inputs. -/
theorem C7_theorem_witness :
    extractCode "http://host/cb?code=abc&state=xyz" =
      queryGetList (rawQueryList (chars "http://host/cb?code=abc&state=xyz")) "code" ∧
    extractCode "https://example.com/callback?error=access_denied" =
      "https://example.com/callback?error=access_denied" ∧
    extractCode "plaincode" = "plaincode" :=
  ⟨(C7_theorem.1 "http://host/cb?code=abc&state=xyz" (by decide) (by decide) (by decide)),
   (C7_theorem.2.1 "https://example.com/callback?error=access_denied"
      (by decide) (by decide) (by decide)),
   (C7_theorem.2.2.1 "plaincode" (by decide) (by decide))⟩

/-- C8 amended: the run pending, pending, activity 555 returns success
555 at 9 seconds elapsed — three 3-second ticks, the first fetch
happening only after the first tick — and not earlier: the first two
fetches alone produce no result. -/
theorem C8_theorem :
    pollUpload pollFetches = some (.success 555, 9) ∧
    pollUpload [.ok pendingU, .ok pendingU] = none := by
  decide

/-- Shape of the payload produced for an attempt: the original body on
attempt 0, a regenerated body when GetBody is present, the consumed
(empty) stream otherwise. -/
lemma rtPayload_shape (req : Request) (attempt : Nat) (payload : Option String)
    (h : (if attempt = 0 then Except.ok req.body
          else match req.getBody with
            | some f => (f ()).map some
            | none => Except.ok (req.body.map (fun _ => ""))) = Except.ok payload) :
    payload = req.body ∨ (∃ f, req.getBody = some f ∧ (f ()).map some = .ok payload) ∨
    (req.getBody = none ∧ payload = req.body.map (fun _ => "")) := by
  by_cases ha : attempt = 0
  · rw [if_pos ha] at h
    exact Or.inl (Except.ok.inj h).symm
  · rw [if_neg ha] at h
    cases hg : req.getBody with
    | some f =>
      rw [hg] at h
      exact Or.inr (Or.inl ⟨f, rfl, h⟩)
    | none =>
      rw [hg] at h
      exact Or.inr (Or.inr ⟨rfl, (Except.ok.inj h).symm⟩)

/-- Every payload the retry loop appends is the original body, a
regenerated body, or the consumed stream of a body-bearing request. -/
lemma rtLoop_sent_shape (fe : RefreshExchange) (now : Int) (base : Nat → RTOutcome)
    (req : Request) :
    ∀ fuel attempt cfg sent q, q ∈ (rtLoop fe now base req fuel attempt cfg sent).sent →
      q ∈ sent ∨ q = req.body ∨
      (∃ f, req.getBody = some f ∧ (f ()).map some = .ok q) ∨
      (req.getBody = none ∧ q = req.body.map (fun _ => "")) := by
  intro fuel
  induction fuel with
  | zero =>
    intro attempt cfg sent q hq
    exact Or.inl hq
  | succ fuel ih =>
    intro attempt cfg sent q hq
    rw [rtLoop] at hq
    split at hq
    · exact Or.inl hq
    · split at hq
      · exact Or.inl hq
      · rename_i payload hpay
        split at hq
        · simp only [List.mem_append, List.mem_singleton] at hq
          rcases hq with hq | hq
          · exact Or.inl hq
          · exact Or.inr (hq ▸ rtPayload_shape req attempt payload hpay)
        · split at hq
          · split at hq
            · simp only [List.mem_append, List.mem_singleton] at hq
              rcases hq with hq | hq
              · exact Or.inl hq
              · exact Or.inr (hq ▸ rtPayload_shape req attempt payload hpay)
            · rcases ih _ _ _ q hq with hq2 | hq2
              · simp only [List.mem_append, List.mem_singleton] at hq2
                rcases hq2 with hq2 | hq2
                · exact Or.inl hq2
                · exact Or.inr (hq2 ▸ rtPayload_shape req attempt payload hpay)
              · exact Or.inr hq2
          · simp only [List.mem_append, List.mem_singleton] at hq
            rcases hq with hq | hq
            · exact Or.inl hq
            · exact Or.inr (hq ▸ rtPayload_shape req attempt payload hpay)

/-- The retry loop issues at most one request per unit of fuel beyond
the attempts already made. -/
lemma rtLoop_requests_le (fe : RefreshExchange) (now : Int) (base : Nat → RTOutcome)
    (req : Request) :
    ∀ fuel attempt cfg sent,
      (rtLoop fe now base req fuel attempt cfg sent).requests ≤ attempt + fuel := by
  intro fuel
  induction fuel with
  | zero =>
    intro attempt cfg sent
    exact Nat.le_refl _
  | succ fuel ih =>
    intro attempt cfg sent
    rw [rtLoop]
    split
    · exact Nat.le_add_right _ _
    · split
      · exact Nat.le_add_right _ _
      · split
        · show attempt + 1 ≤ attempt + (fuel + 1)
          omega
        · split
          · split
            · show attempt + 1 ≤ attempt + (fuel + 1)
              omega
            · exact Nat.le_trans (ih _ _ _) (Nat.le_of_eq (by omega))
          · show attempt + 1 ≤ attempt + (fuel + 1)
            omega

/-- Whenever the retry loop issues a request after attempt k, the
response to attempt k was a retryable status. -/
lemma rtLoop_retry_resp (fe : RefreshExchange) (now : Int) (base : Nat → RTOutcome)
    (req : Request) :
    ∀ fuel attempt cfg sent k, attempt ≤ k →
      k + 1 < (rtLoop fe now base req fuel attempt cfg sent).requests →
      ∃ s, base k = .resp s ∧ isRetryable s = true := by
  intro fuel
  induction fuel with
  | zero =>
    intro attempt cfg sent k hk hlt
    exact absurd hlt (by simp [rtLoop]; omega)
  | succ fuel ih =>
    intro attempt cfg sent k hk hlt
    rw [rtLoop] at hlt
    split at hlt
    · exact absurd hlt (by simp; omega)
    · split at hlt
      · exact absurd hlt (by simp; omega)
      · rename_i payload hpay
        split at hlt
        · exact absurd hlt (by simp; omega)
        · rename_i s hbase
          split at hlt
          · rename_i hretry
            split at hlt
            · exact absurd hlt (by simp; omega)
            · rcases Nat.lt_or_ge k (attempt + 1) with hak | hak
              · have hka : attempt = k := by omega
                subst hka
                exact ⟨s, hbase, hretry⟩
              · exact ih _ _ _ k hak hlt
          · exact absurd hlt (by simp; omega)

/-- C3: the transport issues at most maxRetries + 1 requests and
retries only after a 429 or 5xx response; the sequence 429, 429, 200
takes exactly 3 requests and returns the 200, and four 500s take
exactly 4 requests and yield the error naming the last status and the
retry count. -/
theorem C3_theorem :
    (∀ fe now base req cfg, (RoundTrip fe now base req cfg).requests ≤ maxRetries + 1) ∧
    (∀ fe now base req cfg k, k + 1 < (RoundTrip fe now base req cfg).requests →
      ∃ s, base k = .resp s ∧ isRetryable s = true) ∧
    ((RoundTrip feNone 0 base429 reqNone cfgFresh).requests = 3 ∧
      (RoundTrip feNone 0 base429 reqNone cfgFresh).result = .ok 200) ∧
    ((RoundTrip feNone 0 base500 reqNone cfgFresh).requests = 4 ∧
      (RoundTrip feNone 0 base500 reqNone cfgFresh).result = .error (.exhausted 500 3)) := by
  refine ⟨?_, ?_, by decide, by decide⟩
  · intro fe now base req cfg
    unfold RoundTrip
    split
    · exact Nat.zero_le _
    · simpa using rtLoop_requests_le fe now base req (maxRetries + 1) 0 _ _
  · intro fe now base req cfg k hlt
    unfold RoundTrip at hlt
    split at hlt
    · exact absurd hlt (by simp)
    · exact rtLoop_retry_resp fe now base req (maxRetries + 1) 0 _ _ k (Nat.zero_le k) hlt

/-- C3 witness: the exhausting 500-run has more than one request, so
the first response was retryable. -/
theorem C3_theorem_witness : isRetryable 500 = true := by
  obtain ⟨s, hs, hr⟩ := C3_theorem.2.1 feNone 0 base500 reqNone cfgFresh 0 (by decide)
  have hs5 : s = 500 := by
    have h2 : RTOutcome.resp 500 = RTOutcome.resp s := hs
    exact (RTOutcome.resp.inj h2).symm
  subst hs5
  exact hr

def reqWithGet : Request := ⟨some "abc", some (fun _ => .ok "abc")⟩

/-- C2 amended: when a body-regeneration function returning the
original payload is supplied, every attempt of the transport carries
that payload; but when none is supplied, a body-bearing request whose
first attempt fails is still silently retried and the retry carries
the consumed (empty) body, as the concrete 500-then-200 run shows. -/
theorem C2_theorem (fe : RefreshExchange) (now : Int) (base : Nat → RTOutcome)
    (req : Request) (cfg : Config) (p : String) (f : Unit → Except String String) :
    (req.getBody = some f → f () = .ok p → req.body = some p →
      ∀ q ∈ (RoundTrip fe now base req cfg).sent, q = some p) ∧
    (RoundTrip feNone 0 base52 reqBodyNoGet cfgFresh).sent = [some "abc", some ""] := by
  constructor
  · intro hg hf hb q hq
    unfold RoundTrip at hq
    split at hq
    · exact absurd hq (by simp)
    · rcases rtLoop_sent_shape fe now base req (maxRetries + 1) 0 _ _ q hq with
        h | h | ⟨f2, hf2, hmap⟩ | ⟨hnone, _⟩
      · exact absurd h (by simp)
      · rw [hb] at h
        exact h
      · rw [hg] at hf2
        have hff : f2 = f := (Option.some.inj hf2).symm
        subst hff
        rw [hf] at hmap
        exact (Except.ok.inj hmap).symm
      · rw [hg] at hnone
        exact absurd hnone (by simp)
  · decide

/-- C2 witness: with a regeneration function returning abc, both the
first attempt and the retry carry abc. -/
theorem C2_theorem_witness :
    (RoundTrip feNone 0 base52 reqWithGet cfgFresh).sent.all
      (fun q => decide (q = some "abc")) = true := by
  have h := (C2_theorem feNone 0 base52 reqWithGet cfgFresh "abc" (fun _ => .ok "abc")).1
    rfl rfl rfl
  rw [List.all_eq_true]
  intro q hq
  exact decide_eq_true (h q hq)

end StravaCli
